import Mathlib

/-!
Shallow embedding of the refresh-token-rotation logic documented in
`apps/examples/solid-start/src/root.tsx` (the guide's two code samples):

* the JWT-strategy `jwt` callback, which decides bootstrap / reuse /
  refresh / error on the encoded token tuple;
* the database-strategy `session` callback, which loads the stored
  account row, refreshes it when expired, and writes the refreshed
  credentials back via `prisma.account.update`.

Time is carried in milliseconds (`Date.now()`); stored expiries
(`expires_at`) are in seconds, compared as `expires_at * 1000` against
"now" exactly as the source does.  The outcome of the single `fetch` to
the provider token endpoint is injected as an `ExchangeResult` oracle,
and each embedded callback also reports how many times it consulted
that oracle (`tokenEndpointCalls`), so that side-effect counting
claims are provable.  A `throw` that escapes the callback is an
`Except.error`; a caught one is whatever the `catch` block returns.
-/

namespace RefreshTokens

/-- The user profile assembled by the `jwt` callback on first login
(`id: token.sub, name: profile?.name, email: profile?.email,
image: token?.picture`). -/
structure User where
  id : Option String
  name : Option String
  email : Option String
  image : Option String
deriving Repr, DecidableEq

/-- The OAuth profile argument of the `jwt` callback (only the fields
the source reads). -/
structure Profile where
  name : Option String
  email : Option String
deriving Repr, DecidableEq

/-- The credential tuple persisted in the encoded session token
(`declare module "next-auth/jwt"` plus the fields the callback reads).
`expires_at` is in seconds since epoch.  `refresh_token` is optional:
the source guards on `!token.refresh_token`.  `error` is the
session-visible status flag: `none` is the `ok` status,
`some "RefreshAccessTokenError"` is the `refresh_error` status. -/
structure JWT where
  access_token : String
  expires_at : Nat
  refresh_token : Option String
  user : Option User
  sub : Option String
  picture : Option String
  error : Option String
deriving Repr, DecidableEq

/-- The `account` argument handed to the `jwt` callback on first login
(only read in the bootstrap branch). -/
structure Account where
  access_token : String
  expires_at : Nat
  refresh_token : Option String
deriving Repr, DecidableEq

/-- Outcome of the single `fetch` to the provider token endpoint:
either the parsed success JSON (`access_token`, `expires_in` seconds,
optional rotated `refresh_token`), or failure (a non-`response.ok`
response or a transport error — the source collapses both into the
same `catch`). -/
inductive ExchangeResult where
  | ok (access_token : String) (expires_in : Nat) (refresh_token : Option String)
  | failure
deriving Repr, DecidableEq

/-- The rotation fallback `responseTokens.refresh_token ?? old`:
use the provider's rotated value when supplied, else keep the old
one. -/
def rotateRefresh (fresh old : Option String) : Option String :=
  match fresh with
  | some r => some r
  | none => old

instance {ε α : Type} [DecidableEq ε] [DecidableEq α] :
    DecidableEq (Except ε α) := fun a b =>
  match a, b with
  | .ok x, .ok y =>
      if h : x = y then .isTrue (by rw [h]) else .isFalse (by simp [h])
  | .error x, .error y =>
      if h : x = y then .isTrue (by rw [h]) else .isFalse (by simp [h])
  | .ok _, .error _ => .isFalse (by simp)
  | .error _, .ok _ => .isFalse (by simp)

/-- Result of one evaluation of the `jwt` callback: the returned token
(or the uncaught thrown error message), plus the number of calls made
to the provider token endpoint during the evaluation. -/
structure JwtOutcome where
  result : Except String JWT
  tokenEndpointCalls : Nat
deriving Repr, DecidableEq

/-- The JWT-strategy `jwt` callback of the source, as a function of the
incoming token, the (first-login-only) `account` and `profile`
arguments, the current time in milliseconds, and the token-endpoint
oracle.

Branches, in source order:
1. `account` present — first login: build a fresh token object holding
   exactly the four keys of the source's object literal (so no `error`
   flag and no leftover `sub`/`picture` claims).
2. `Date.now() < token.expires_at * 1000` — still valid: return the
   token unchanged.
3. `!token.refresh_token` — expired without a refresh token: the
   source throws `new Error("Missing refresh token")` *outside* the
   `try`, so the throw escapes the callback.
4. otherwise one `fetch`; on success return `{ ...token, ... }` with
   the new credentials (`Math.floor(Date.now() / 1000 + expires_in)`
   equals `nowMs / 1000 + expires_in` in integer division since
   `expires_in` is an integer; the spread keeps every other field of
   `token`, including a pre-existing `error` flag); on failure return
   `{ ...token, error: "RefreshAccessTokenError" }`. -/
def jwt (token : JWT) (account : Option Account) (profile : Option Profile)
    (nowMs : Nat) (exchange : ExchangeResult) : JwtOutcome :=
  match account with
  | some a =>
      let userProfile : User :=
        { id := token.sub
          name := profile.bind Profile.name
          email := profile.bind Profile.email
          image := token.picture }
      { result := .ok
          { access_token := a.access_token
            expires_at := a.expires_at
            refresh_token := a.refresh_token
            user := some userProfile
            sub := none
            picture := none
            error := none }
        tokenEndpointCalls := 0 }
  | none =>
      if nowMs < token.expires_at * 1000 then
        { result := .ok token, tokenEndpointCalls := 0 }
      else if token.refresh_token.isNone then
        { result := .error "Missing refresh token", tokenEndpointCalls := 0 }
      else
        match exchange with
        | .ok newAccess expiresIn newRefresh =>
            { result := .ok
                { token with
                  access_token := newAccess
                  expires_at := nowMs / 1000 + expiresIn
                  refresh_token := rotateRefresh newRefresh token.refresh_token }
              tokenEndpointCalls := 1 }
        | .failure =>
            { result := .ok { token with error := some "RefreshAccessTokenError" }
              tokenEndpointCalls := 1 }

/-- The spec's `status` flag read off a token: `ok` exactly when the
`error` property is absent (`true`), `refresh_error` when it is set
(`false`).  The source exposes the status through the optional `error`
property. -/
def JWT.statusOk (t : JWT) : Bool := t.error.isNone

/-- A stored `account` row of the database strategy (the columns the
source reads and writes). -/
structure AccountRow where
  userId : String
  provider : String
  providerAccountId : String
  access_token : String
  expires_at : Nat
  refresh_token : Option String
deriving Repr, DecidableEq

/-- The session object the database-strategy `session` callback
receives and returns.  It carries the adapter-provided user view and
expiry plus the optional `error` flag the callback may set; it has no
access-credential field at all. -/
structure Session where
  user : User
  expires : String
  error : Option String
deriving Repr, DecidableEq

/-- The uncaught runtime failure of the database-strategy callback:
reading `googleAccount.expires_at` when `findMany` returned no row
(`const [googleAccount] = ...` destructures `undefined`). -/
inductive DbError where
  | typeError
deriving Repr, DecidableEq

/-- Result of one evaluation of the database-strategy `session`
callback: the returned session (or the uncaught runtime error), the
account table after the evaluation, and the number of calls to the
provider token endpoint. -/
structure DbOutcome where
  result : Except DbError Session
  accounts : List AccountRow
  tokenEndpointCalls : Nat
deriving Repr, DecidableEq

/-- `prisma.account.findMany({ where: { userId: user.id, provider:
"google" } })`. -/
def findGoogleAccounts (accounts : List AccountRow) (uid : String) :
    List AccountRow :=
  accounts.filter fun r => r.userId == uid && r.provider == "google"

/-- `prisma.account.update({ data: ..., where: {
provider_providerAccountId: { provider: "google", providerAccountId }
} })`: rewrite the credential columns of the row(s) matching the
unique key. -/
def updateGoogleAccount (accounts : List AccountRow) (pid : String)
    (newAccess : String) (newExpiresAt : Nat) (newRefresh : Option String) :
    List AccountRow :=
  accounts.map fun r =>
    if r.provider == "google" && r.providerAccountId == pid then
      { r with
        access_token := newAccess
        expires_at := newExpiresAt
        refresh_token := newRefresh }
    else r

/-- The database-strategy `session` callback of the source, as a
function of the incoming session, the principal's user id, the account
table, the current time in milliseconds, and the token-endpoint
oracle.

Flow: destructure the first row of `findMany` (no row: reading
`.expires_at` of `undefined` throws a TypeError that escapes the
callback); if `expires_at * 1000 < Date.now()` perform the exchange —
on success `prisma.account.update` stores the new credentials (with
the `??` rotation fallback) and the session is returned untouched; on
failure (`throw responseTokens` caught by the `catch`) set
`session.error = "RefreshAccessTokenError"`.  Note the exchange is
attempted whenever the row is expired, even if its `refresh_token` is
absent (the source sends it unguarded). -/
def dbSession (session : Session) (uid : String) (accounts : List AccountRow)
    (nowMs : Nat) (exchange : ExchangeResult) : DbOutcome :=
  match findGoogleAccounts accounts uid with
  | [] =>
      { result := .error .typeError
        accounts := accounts
        tokenEndpointCalls := 0 }
  | googleAccount :: _ =>
      if googleAccount.expires_at * 1000 < nowMs then
        match exchange with
        | .ok newAccess expiresIn newRefresh =>
            { result := .ok session
              accounts := updateGoogleAccount accounts
                googleAccount.providerAccountId newAccess
                (nowMs / 1000 + expiresIn)
                (rotateRefresh newRefresh googleAccount.refresh_token)
              tokenEndpointCalls := 1 }
        | .failure =>
            { result := .ok { session with error := some "RefreshAccessTokenError" }
              accounts := accounts
              tokenEndpointCalls := 1 }
      else
        { result := .ok session
          accounts := accounts
          tokenEndpointCalls := 0 }

/-! ## Claim theorems -/

/-- Claim C1, counterexample.  With an expired access credential
(`expires_at = 100`, now = 150 s) and no refresh credential, the
JWT-strategy callback does not return a `refresh_error` tuple: the
`throw new Error("Missing refresh token")` sits outside the `try`
block, so the evaluation ends in an uncaught exception — refuting
"returns (never throws) a tuple with status = refresh_error". -/
theorem C1_counterexample :
    (jwt { access_token := "A1", expires_at := 100, refresh_token := none,
           user := none, sub := none, picture := none, error := none }
        none none 150000 ExchangeResult.failure).result =
      Except.error "Missing refresh token" := rfl

/-- Claim C1, amended: whenever the access credential is expired and
the refresh credential is absent, the JWT-strategy callback attempts
no exchange (zero token-endpoint calls) but terminates by throwing the
"Missing refresh token" error, which escapes to the caller, instead of
returning a `refresh_error` tuple. -/
theorem C1_amended (token : JWT) (profile : Option Profile) (nowMs : Nat)
    (exchange : ExchangeResult)
    (hexp : token.expires_at * 1000 ≤ nowMs)
    (href : token.refresh_token = none) :
    jwt token none profile nowMs exchange =
      { result := Except.error "Missing refresh token"
        tokenEndpointCalls := 0 } := by
  unfold jwt
  rw [if_neg (Nat.not_lt.mpr hexp), href]
  rfl

/-- Claim C1, witness: the amended statement at the spec's concrete
scenario `{access = "A1", expiry = 100, refresh = absent}`,
now = 200 s. -/
theorem C1_witness :
    jwt { access_token := "A1", expires_at := 100, refresh_token := none,
          user := none, sub := none, picture := none, error := none }
        none none 200000 ExchangeResult.failure =
      { result := Except.error "Missing refresh token"
        tokenEndpointCalls := 0 } :=
  C1_amended _ _ _ _ (by decide) rfl

/-- Claim C2, counterexample.  A tuple carrying `status = refresh_error`
from a prior failed materialization (`error` already set), expired,
with a refresh credential, and a *successful* exchange: the success
branch returns `{ ...token, ... }`, and the spread retains the stale
`error` property, so the result's status is still `refresh_error`, not
`ok` as the claim states. -/
theorem C2_counterexample :
    ((jwt { access_token := "A1", expires_at := 100,
            refresh_token := some "R1", user := none, sub := none,
            picture := none, error := some "RefreshAccessTokenError" }
        none none 150000 (ExchangeResult.ok "A2" 3600 none)).result.map
      JWT.statusOk) = Except.ok false := rfl

/-- Claim C2, amended: for an expired tuple with a refresh credential
and a successful exchange returning `expires_in = E`, the result
carries the new access credential, `expires_at = ⌊now / 1000⌋ + E`,
and the rotation rule on the refresh credential; every other property
of the input token is retained by the spread, so the status is
`ok` exactly when the input carried no prior `refresh_error` flag (a
stale error flag is kept, not cleared). -/
theorem C2_amended (token : JWT) (profile : Option Profile) (nowMs : Nat)
    (r newAccess : String) (expiresIn : Nat) (newRefresh : Option String)
    (hexp : token.expires_at * 1000 ≤ nowMs)
    (href : token.refresh_token = some r) :
    jwt token none profile nowMs
        (ExchangeResult.ok newAccess expiresIn newRefresh) =
      { result := Except.ok
          { token with
            access_token := newAccess
            expires_at := nowMs / 1000 + expiresIn
            refresh_token := rotateRefresh newRefresh token.refresh_token }
        tokenEndpointCalls := 1 } := by
  unfold jwt
  rw [if_neg (Nat.not_lt.mpr hexp), href]
  rfl

/-- Claim C2, witness: the spec's concrete scenario
`{access = "A1", expiry = 100, refresh = "R1"}`, now = 150 s, exchange
returns `{access_token = "A2", expires_in = 3600}` — result
`{access = "A2", expiry = 3750, refresh = "R1", status = ok}`. -/
theorem C2_witness :
    jwt { access_token := "A1", expires_at := 100,
          refresh_token := some "R1", user := none, sub := none,
          picture := none, error := none }
        none none 150000 (ExchangeResult.ok "A2" 3600 none) =
      { result := Except.ok
          { access_token := "A2", expires_at := 3750,
            refresh_token := some "R1", user := none, sub := none,
            picture := none, error := none }
        tokenEndpointCalls := 1 } :=
  C2_amended _ _ _ "R1" _ _ _ (by decide) rfl

/-- Claim C3, counterexample.  An unexpired tuple whose `error`
property is already set (a stale `refresh_error` flag, observable when
the clock regresses after a failed refresh): the reuse branch returns
the token unchanged, so the result's status is `refresh_error`, not
`ok` as the claim states. -/
theorem C3_counterexample :
    ((jwt { access_token := "A1", expires_at := 100,
            refresh_token := some "R1", user := none, sub := none,
            picture := none, error := some "RefreshAccessTokenError" }
        none none 50000 ExchangeResult.failure).result.map
      JWT.statusOk) = Except.ok false := rfl

/-- Claim C3, amended: for every tuple with a prior access credential
(non-bootstrap call) and `now < expiry`, the JWT-strategy callback
returns the input tuple unchanged — hence with the input's own status,
which is `ok` whenever the input carries no prior error flag — and
performs zero network calls. -/
theorem C3_amended (token : JWT) (profile : Option Profile) (nowMs : Nat)
    (exchange : ExchangeResult)
    (hfresh : nowMs < token.expires_at * 1000) :
    jwt token none profile nowMs exchange =
      { result := Except.ok token, tokenEndpointCalls := 0 } := by
  unfold jwt
  rw [if_pos hfresh]

/-- Claim C3, witness: the spec's concrete scenario
`{access = "A1", expiry = 100, refresh = "R1"}`, now = 50 s —
unchanged, status `ok`, zero calls. -/
theorem C3_witness :
    jwt { access_token := "A1", expires_at := 100,
          refresh_token := some "R1", user := none, sub := none,
          picture := none, error := none }
        none none 50000 ExchangeResult.failure =
      { result := Except.ok
          { access_token := "A1", expires_at := 100,
            refresh_token := some "R1", user := none, sub := none,
            picture := none, error := none }
        tokenEndpointCalls := 0 } :=
  C3_amended _ _ _ _ (by decide)

/-- Claim C4: when the access credential is expired, a refresh
credential is present, and the exchange fails, both strategies leave
every credential field untouched and only set the `refresh_error`
status — the JWT-strategy callback returns the input token with only
`error` set (no partial mutation of `access_token`, `expires_at`,
`refresh_token`), and the database-strategy callback returns the input
session with `error` set while the stored account table is not
modified. -/
theorem C4_failure_frame (token : JWT) (profile : Option Profile)
    (nowMs : Nat) (r : String) (session : Session) (uid : String)
    (accounts : List AccountRow) (row : AccountRow)
    (rest : List AccountRow)
    (hexp : token.expires_at * 1000 ≤ nowMs)
    (href : token.refresh_token = some r)
    (hrow : findGoogleAccounts accounts uid = row :: rest)
    (hrowexp : row.expires_at * 1000 < nowMs) :
    jwt token none profile nowMs ExchangeResult.failure =
      { result := Except.ok
          { token with error := some "RefreshAccessTokenError" }
        tokenEndpointCalls := 1 } ∧
    dbSession session uid accounts nowMs ExchangeResult.failure =
      { result := Except.ok
          { session with error := some "RefreshAccessTokenError" }
        accounts := accounts
        tokenEndpointCalls := 1 } := by
  constructor
  · unfold jwt
    rw [if_neg (Nat.not_lt.mpr hexp), href]
    rfl
  · simp [dbSession, hrow, hrowexp]

/-- Claim C4, witness: the spec's concrete scenario — an expired tuple
`{access = "A1", expiry = 100, refresh = "R1"}` at now = 150 s whose
exchange fails returns `{access = "A1", expiry = 100, refresh = "R1",
status = refresh_error}` in the JWT strategy, and in the database
strategy the session gains the error flag while the stored row is
unchanged. -/
theorem C4_witness :
    (jwt { access_token := "A1", expires_at := 100,
           refresh_token := some "R1", user := none, sub := none,
           picture := none, error := none }
        none none 150000 ExchangeResult.failure =
      { result := Except.ok
          { access_token := "A1", expires_at := 100,
            refresh_token := some "R1", user := none, sub := none,
            picture := none, error := some "RefreshAccessTokenError" }
        tokenEndpointCalls := 1 }) ∧
    (dbSession { user := { id := some "u1", name := none, email := none,
                           image := none },
                 expires := "2026-01-01", error := none }
        "u1"
        [{ userId := "u1", provider := "google", providerAccountId := "P1",
           access_token := "A1", expires_at := 100,
           refresh_token := some "R1" }]
        150000 ExchangeResult.failure =
      { result := Except.ok
          { user := { id := some "u1", name := none, email := none,
                      image := none },
            expires := "2026-01-01",
            error := some "RefreshAccessTokenError" }
        accounts :=
          [{ userId := "u1", provider := "google",
             providerAccountId := "P1", access_token := "A1",
             expires_at := 100, refresh_token := some "R1" }]
        tokenEndpointCalls := 1 }) :=
  C4_failure_frame _ _ _ "R1" _ _ _
    { userId := "u1", provider := "google", providerAccountId := "P1",
      access_token := "A1", expires_at := 100, refresh_token := some "R1" }
    [] (by decide) rfl (by decide) (by decide)

/-- Claim C5: the rotation law in both strategies.  On a successful
exchange for an expired tuple with a refresh credential: when the
response omits a rotated refresh credential, the JWT result keeps the
input's `refresh_token` unchanged and the database update stores the
old row's `refresh_token`; when the response supplies one, both carry
the rotated value. -/
theorem C5_rotation (token : JWT) (profile : Option Profile)
    (nowMs : Nat) (r newAccess r2 : String) (expiresIn : Nat)
    (session : Session) (uid : String) (accounts : List AccountRow)
    (row : AccountRow) (rest : List AccountRow)
    (hexp : token.expires_at * 1000 ≤ nowMs)
    (href : token.refresh_token = some r)
    (hrow : findGoogleAccounts accounts uid = row :: rest)
    (hrowexp : row.expires_at * 1000 < nowMs) :
    ((jwt token none profile nowMs
        (ExchangeResult.ok newAccess expiresIn none)).result =
      Except.ok
        { token with
          access_token := newAccess
          expires_at := nowMs / 1000 + expiresIn }) ∧
    ((jwt token none profile nowMs
        (ExchangeResult.ok newAccess expiresIn (some r2))).result =
      Except.ok
        { token with
          access_token := newAccess
          expires_at := nowMs / 1000 + expiresIn
          refresh_token := some r2 }) ∧
    ((dbSession session uid accounts nowMs
        (ExchangeResult.ok newAccess expiresIn none)).accounts =
      updateGoogleAccount accounts row.providerAccountId newAccess
        (nowMs / 1000 + expiresIn) row.refresh_token) ∧
    ((dbSession session uid accounts nowMs
        (ExchangeResult.ok newAccess expiresIn (some r2))).accounts =
      updateGoogleAccount accounts row.providerAccountId newAccess
        (nowMs / 1000 + expiresIn) (some r2)) := by
  refine ⟨?_, ?_, ?_, ?_⟩
  · unfold jwt
    rw [if_neg (Nat.not_lt.mpr hexp), href]
    rfl
  · unfold jwt
    rw [if_neg (Nat.not_lt.mpr hexp), href]
    rfl
  · simp [dbSession, hrow, hrowexp, rotateRefresh]
  · simp [dbSession, hrow, hrowexp, rotateRefresh]

/-- Claim C5, witness: the rotation law at the concrete expired tuple
`{access = "A1", expiry = 100, refresh = "R1"}` at now = 150 s: an
exchange response without a `refresh_token` keeps `"R1"`, one with
`"R2"` stores `"R2"`, in both strategies. -/
theorem C5_witness :
    ((jwt { access_token := "A1", expires_at := 100,
            refresh_token := some "R1", user := none, sub := none,
            picture := none, error := none }
        none none 150000 (ExchangeResult.ok "A2" 3600 none)).result =
      Except.ok
        { access_token := "A2", expires_at := 3750,
          refresh_token := some "R1", user := none, sub := none,
          picture := none, error := none }) ∧
    ((jwt { access_token := "A1", expires_at := 100,
            refresh_token := some "R1", user := none, sub := none,
            picture := none, error := none }
        none none 150000 (ExchangeResult.ok "A2" 3600 (some "R2"))).result =
      Except.ok
        { access_token := "A2", expires_at := 3750,
          refresh_token := some "R2", user := none, sub := none,
          picture := none, error := none }) ∧
    ((dbSession { user := { id := some "u1", name := none, email := none,
                            image := none },
                  expires := "2026-01-01", error := none }
        "u1"
        [{ userId := "u1", provider := "google", providerAccountId := "P1",
           access_token := "A1", expires_at := 100,
           refresh_token := some "R1" }]
        150000 (ExchangeResult.ok "A2" 3600 none)).accounts =
      updateGoogleAccount
        [{ userId := "u1", provider := "google", providerAccountId := "P1",
           access_token := "A1", expires_at := 100,
           refresh_token := some "R1" }]
        "P1" "A2" 3750 (some "R1")) ∧
    ((dbSession { user := { id := some "u1", name := none, email := none,
                            image := none },
                  expires := "2026-01-01", error := none }
        "u1"
        [{ userId := "u1", provider := "google", providerAccountId := "P1",
           access_token := "A1", expires_at := 100,
           refresh_token := some "R1" }]
        150000 (ExchangeResult.ok "A2" 3600 (some "R2"))).accounts =
      updateGoogleAccount
        [{ userId := "u1", provider := "google", providerAccountId := "P1",
           access_token := "A1", expires_at := 100,
           refresh_token := some "R1" }]
        "P1" "A2" 3750 (some "R2")) :=
  C5_rotation _ _ _ "R1" _ "R2" _ _ _ _
    { userId := "u1", provider := "google", providerAccountId := "P1",
      access_token := "A1", expires_at := 100, refresh_token := some "R1" }
    [] (by decide) rfl (by decide) (by decide)

/-- Claim C6: the bootstrap case.  When the `account` argument is
present (first materialization after the initial authorization, where
the tuple carries no prior access credential), the JWT-strategy
callback returns the supplied credentials as-is — `access_token`,
`expires_at`, `refresh_token` taken verbatim from the account, with no
error flag (status `ok`) — together with the assembled user profile,
and performs zero network calls. -/
theorem C6_bootstrap (token : JWT) (a : Account) (profile : Option Profile)
    (nowMs : Nat) (exchange : ExchangeResult) :
    jwt token (some a) profile nowMs exchange =
      { result := Except.ok
          { access_token := a.access_token
            expires_at := a.expires_at
            refresh_token := a.refresh_token
            user := some
              { id := token.sub
                name := profile.bind Profile.name
                email := profile.bind Profile.email
                image := token.picture }
            sub := none
            picture := none
            error := none }
        tokenEndpointCalls := 0 } := rfl

/-- Claim C7: side-effect bounds.  Every evaluation of either strategy
makes at most one call to the provider token endpoint (so a failed
exchange is never retried within the same materialization); the
JWT-strategy callback makes exactly one call precisely on the refresh
path (no bootstrap account, expired, refresh credential present) and
zero calls on the bootstrap, reuse and missing-refresh-credential
paths. -/
theorem C7_single_call (token : JWT) (account : Option Account)
    (profile : Option Profile) (nowMs : Nat) (exchange : ExchangeResult)
    (session : Session) (uid : String) (accounts : List AccountRow) :
    (jwt token account profile nowMs exchange).tokenEndpointCalls ≤ 1 ∧
    ((jwt token account profile nowMs exchange).tokenEndpointCalls = 1 ↔
      account = none ∧ token.expires_at * 1000 ≤ nowMs ∧
        token.refresh_token ≠ none) ∧
    (dbSession session uid accounts nowMs exchange).tokenEndpointCalls ≤ 1 := by
  refine ⟨?_, ?_, ?_⟩
  · cases account with
    | some a => simp [jwt]
    | none =>
      by_cases hf : nowMs < token.expires_at * 1000
      · simp [jwt, hf]
      · by_cases hr : token.refresh_token = none
        · simp [jwt, hf, hr]
        · cases exchange <;>
            simp [jwt, hf, Option.isNone_iff_eq_none, hr]
  · cases account with
    | some a => simp [jwt]
    | none =>
      by_cases hf : nowMs < token.expires_at * 1000
      · simp [jwt, hf, Nat.not_le.mpr hf]
      · by_cases hr : token.refresh_token = none
        · simp [jwt, hf, hr]
        · cases exchange <;>
            simp [jwt, hf, Option.isNone_iff_eq_none, hr, Nat.not_lt.mp hf]
  · cases hrow : findGoogleAccounts accounts uid with
    | nil => simp [dbSession, hrow]
    | cons row rest =>
      by_cases he : row.expires_at * 1000 < nowMs
      · cases exchange <;> simp [dbSession, hrow, he]
      · simp [dbSession, hrow, he]

/-- Claim C8, counterexample.  The database-strategy `session` callback
does write to the Credential Store itself: at a concrete expired row
with a successful exchange, the account table after the evaluation
holds the refreshed credentials (written via `prisma.account.update`
inside the callback) and differs from the input table — refuting "the
Coordinator performs no write to the Credential Store; persisting is
the caller's responsibility". -/
theorem C8_counterexample :
    ((dbSession { user := { id := some "u1", name := none, email := none,
                            image := none },
                  expires := "2026-01-01", error := none }
        "u1"
        [{ userId := "u1", provider := "google", providerAccountId := "P1",
           access_token := "A1", expires_at := 100,
           refresh_token := some "R1" }]
        150000 (ExchangeResult.ok "A2" 3600 none)).accounts =
      [{ userId := "u1", provider := "google", providerAccountId := "P1",
         access_token := "A2", expires_at := 3750,
         refresh_token := some "R1" }]) ∧
    ((dbSession { user := { id := some "u1", name := none, email := none,
                            image := none },
                  expires := "2026-01-01", error := none }
        "u1"
        [{ userId := "u1", provider := "google", providerAccountId := "P1",
           access_token := "A1", expires_at := 100,
           refresh_token := some "R1" }]
        150000 (ExchangeResult.ok "A2" 3600 none)).accounts ≠
      [{ userId := "u1", provider := "google", providerAccountId := "P1",
         access_token := "A1", expires_at := 100,
         refresh_token := some "R1" }]) :=
  ⟨rfl, by decide⟩

/-- Claim C8, amended: the separation of decision from persistence
holds only for the JWT strategy (whose callback's sole output is the
returned token).  In the database strategy the `session` callback
persists the outcome itself: the account table after an evaluation is
either unchanged (missing row, unexpired row, or failed exchange) or
rewritten by the callback's own `prisma.account.update` with the
refreshed credentials of the loaded row — the caller is never handed
an updated tuple to store. -/
theorem C8_amended (session : Session) (uid : String)
    (accounts : List AccountRow) (nowMs : Nat)
    (exchange : ExchangeResult) :
    (dbSession session uid accounts nowMs exchange).accounts = accounts ∨
    (∃ row rest newAccess expiresIn newRefresh,
      findGoogleAccounts accounts uid = row :: rest ∧
      row.expires_at * 1000 < nowMs ∧
      exchange = ExchangeResult.ok newAccess expiresIn newRefresh ∧
      (dbSession session uid accounts nowMs exchange).accounts =
        updateGoogleAccount accounts row.providerAccountId newAccess
          (nowMs / 1000 + expiresIn)
          (rotateRefresh newRefresh row.refresh_token)) := by
  cases hrow : findGoogleAccounts accounts uid with
  | nil => left; simp [dbSession, hrow]
  | cons row rest =>
    by_cases he : row.expires_at * 1000 < nowMs
    · cases exchange with
      | ok newAccess expiresIn newRefresh =>
        right
        exact ⟨row, rest, newAccess, expiresIn, newRefresh, rfl, he, rfl,
          by simp [dbSession, hrow, he]⟩
      | failure => left; simp [dbSession, hrow, he]
    · left; simp [dbSession, hrow, he]

/-- Claim C9: in the database strategy, a principal with no stored
account row for the provider makes the load path partial:
`const [googleAccount] = await prisma.account.findMany(...)`
destructures `undefined` and the subsequent `googleAccount.expires_at`
dereference throws a TypeError outside any `try`, so the evaluation
aborts with a runtime error instead of returning a session (and makes
no network call, leaving the store untouched). -/
theorem C9_missing_row (session : Session) (uid : String)
    (accounts : List AccountRow) (nowMs : Nat)
    (exchange : ExchangeResult)
    (h : findGoogleAccounts accounts uid = []) :
    dbSession session uid accounts nowMs exchange =
      { result := Except.error DbError.typeError
        accounts := accounts
        tokenEndpointCalls := 0 } := by
  unfold dbSession
  rw [h]

/-- Claim C9, witness: a principal with an empty account table aborts
with the runtime TypeError. -/
theorem C9_witness :
    dbSession { user := { id := some "u1", name := none, email := none,
                          image := none },
                expires := "2026-01-01", error := none }
        "u1" [] 150000 ExchangeResult.failure =
      { result := Except.error DbError.typeError
        accounts := []
        tokenEndpointCalls := 0 } :=
  C9_missing_row _ _ _ _ _ rfl

/-- Claim C10: in the database strategy, whenever the `session`
callback returns a session at all, that session is the input session
unchanged or the input session with only the error flag set — the
refreshed access credential never reaches the returned session (the
session object carries no credential field and the success path only
updates the stored account row). -/
theorem C10_session_frame (session : Session) (uid : String)
    (accounts : List AccountRow) (nowMs : Nat)
    (exchange : ExchangeResult) (s : Session)
    (h : (dbSession session uid accounts nowMs exchange).result =
      Except.ok s) :
    s = session ∨
    s = { session with error := some "RefreshAccessTokenError" } := by
  cases hrow : findGoogleAccounts accounts uid with
  | nil => simp [dbSession, hrow] at h
  | cons row rest =>
    by_cases he : row.expires_at * 1000 < nowMs
    · cases exchange with
      | ok newAccess expiresIn newRefresh =>
        left
        simp [dbSession, hrow, he] at h
        exact h.symm
      | failure =>
        right
        simp [dbSession, hrow, he] at h
        simp [← h]
    · left
      simp [dbSession, hrow, he] at h
      exact h.symm

/-- Claim C10, witness: at a concrete expired row with a failing
exchange, the returned session is the input session with only the
error flag set. -/
theorem C10_witness :
    ({ user := { id := some "u1", name := none, email := none,
                 image := none },
       expires := "2026-01-01",
       error := some "RefreshAccessTokenError" } : Session) =
      { user := { id := some "u1", name := none, email := none,
                  image := none },
        expires := "2026-01-01", error := none } ∨
    ({ user := { id := some "u1", name := none, email := none,
                 image := none },
       expires := "2026-01-01",
       error := some "RefreshAccessTokenError" } : Session) =
      { user := { id := some "u1", name := none, email := none,
                  image := none },
        expires := "2026-01-01",
        error := some "RefreshAccessTokenError" } :=
  C10_session_frame
    { user := { id := some "u1", name := none, email := none,
                image := none },
      expires := "2026-01-01", error := none }
    "u1"
    [{ userId := "u1", provider := "google", providerAccountId := "P1",
       access_token := "A1", expires_at := 100,
       refresh_token := some "R1" }]
    150000 ExchangeResult.failure _ rfl

end RefreshTokens
